import Mathlib

/-!
Verification of the ingestion pipeline of the whatsapp-tiktok-downloader
repository: a shallow embedding of the URL normalizer, the dedup tracker,
the relevance scorer, the rate-limited geocoder, the tracker load/save
logic and the `/process` orchestrator, together with theorems settling
the specification's claims about them.

URLs and free-text blobs are modelled as `List Char` (Python strings);
opaque payload fields (titles, uploaders, senders) are Lean `String`s.
External collaborators (yt-dlp, Gemini, GCS, Nominatim) are modelled as
oracle values or oracle functions passed in explicitly, with `Except`
for calls that can raise.
-/

namespace WTD

/-! ## URL normalizer (downloader.py, `normalize_url`) -/

/-- Python `l.rstrip('/')`: drop every trailing `'/'`. -/
def rstripSlash (l : List Char) : List Char :=
  (l.reverse.dropWhile (fun c => c == '/')).reverse

/-- Embeds `normalize_url`: `url.split('?')[0].split('#')[0].rstrip('/')`.
`split(sep)[0]` is the prefix of the string before the first separator,
i.e. `takeWhile (· ≠ sep)`. -/
def normalize_url (url : List Char) : List Char :=
  rstripSlash ((url.takeWhile (fun c => !(c == '?'))).takeWhile (fun c => !(c == '#')))

/-! ## Dedup tracker (downloader.py) -/

/-- One tracker value (`tracker[url]`).  `downloaded_at` (wall-clock time)
is not modelled.  `restaurants_found`, `analysis_file` and
`analysis_error` are `none` on the entries that do not set those keys. -/
structure Entry where
  filename : Option String
  title : String
  uploader : String
  sender : String
  chat : String
  category : String
  filter_result : String
  restaurants_found : Option Nat
  analysis_file : Option String
  analysis_error : Option String
  deriving Repr, DecidableEq

/-- The tracker is a JSON object keyed by raw URL: an insertion-ordered
association list with pairwise-distinct keys (Python dict). -/
abbrev Tracker := List (List Char × Entry)

/-- Keys of the tracker, in insertion order. -/
def keys (t : Tracker) : List (List Char) := t.map Prod.fst

/-- Embeds `is_duplicate`: iterate over the tracked URLs and compare
normalized forms. -/
def is_duplicate (url : List Char) (tracker : Tracker) : Bool :=
  tracker.any (fun p => normalize_url p.1 == normalize_url url)

/-- Python dict assignment `tracker[url] = e`: replace in place if the key
exists, else append at the end. -/
def trackerInsert (tracker : Tracker) (url : List Char) (e : Entry) : Tracker :=
  if tracker.any (fun p => p.1 == url) then
    tracker.map (fun p => if p.1 == url then (url, e) else p)
  else
    tracker ++ [(url, e)]

/-- Dict lookup `tracker.get(url)`. -/
def lookup (tracker : Tracker) (url : List Char) : Option Entry :=
  (tracker.find? (fun p => p.1 == url)).map Prod.snd

/-! ## Relevance scorer (metadata_filter.py) -/

/-- High-confidence food words (`HIGH_KEYWORDS`), +3 each. -/
def HIGH_KEYWORDS : List String :=
  ["restaurant", "cafe", "café", "bistro", "omakase", "ramen", "sushi",
   "pizzeria", "diner", "eatery", "foodtok", "foodie", "mukbang",
   "michelin", "foodcrawl", "food crawl", "food tour", "food review",
   "food spot", "food vlog", "food blog", "must eat", "must try",
   "best eats", "where to eat", "eating tour", "street food",
   "food guide", "food find", "food hack", "food rec",
   "izakaya", "trattoria", "gastropub", "hawker",
   "resto", "warung", "kuliner", "kulineran", "makan", "makanan",
   "kopitiam", "bakso", "prasmanan", "foodmap", "jktfood", "jktgo",
   "yakitori", "yakibuta", "tempura", "udon", "donburi"]

/-- Medium-confidence food words (`MEDIUM_KEYWORDS`), +1 each. -/
def MEDIUM_KEYWORDS : List String :=
  ["food", "eat", "eating", "ate", "brunch", "lunch", "dinner",
   "breakfast", "cook", "cooking", "recipe", "dish", "menu", "taste",
   "tasting", "delicious", "yummy", "hungry", "bao", "pho", "taco",
   "burger", "steak", "pasta", "noodle", "noodles", "bbq", "barbecue",
   "seafood", "dessert", "bakery", "hidden gem", "chef", "kitchen",
   "appetizer", "entree", "cocktail", "wine bar", "bar food",
   "dim sum", "dumpling", "pizza", "curry", "thai", "korean",
   "japanese", "mexican", "italian", "chinese", "vietnamese",
   "indian", "mediterranean", "greek", "french cuisine",
   "spicy", "crispy", "grilled", "fried", "roasted",
   "nasi", "mie", "bakmi", "bakmie", "babi", "ayam", "bebek",
   "sambal", "goreng", "soto", "enak", "cobain", "nyobain",
   "batagor", "cuankie", "misoa", "hainam", "tiramisu",
   "lauknya", "pedes", "viral", "hits",
   "tonkotsu", "matcha", "gyoza", "katsu", "bento", "onigiri"]

/-- Anti-keywords (`ANTI_KEYWORDS`); the loop subtracts 2 per match. -/
def ANTI_KEYWORDS : List String :=
  ["tutorial", "gaming", "makeup", "dance challenge", "fitness",
   "workout", "news", "politics", "unboxing tech", "coding",
   "programming", "skincare", "fashion haul", "prank",
   "diy craft", "home decor diy"]

/-- Python `s.lower()` on a char list. -/
def lowerLC (l : List Char) : List Char := l.map Char.toLower

/-- The metadata dict as returned by `extract_metadata` / used by the
scorer (only the fields the scorer and the orchestrator read). -/
structure Meta where
  id : String
  title : String
  description : String
  uploader : String
  tags : List String
  deriving Repr, DecidableEq

/-- Python `' '.join(tags)`. -/
def joinSpace (tags : List String) : List Char :=
  (String.intercalate " " tags).toList

/-- The text blob `f'{title} {description} {uploader} {tags}'` built by
`is_likely_restaurant`, each part lower-cased. -/
def blob (m : Meta) : List Char :=
  lowerLC m.title.toList ++ ' ' :: lowerLC m.description.toList ++
    ' ' :: lowerLC m.uploader.toList ++ ' ' :: lowerLC (joinSpace m.tags)

/-- `leadsWith needle hay`: `needle` is an initial segment of `hay`. -/
def leadsWith : List Char → List Char → Bool
  | [], _ => true
  | _ :: _, [] => false
  | a :: as, b :: bs => a == b && leadsWith as bs

/-- `hasSub hay needle`: `needle` occurs contiguously inside `hay`
(Python's `needle in hay` on strings). -/
def hasSub (hay needle : List Char) : Bool :=
  leadsWith needle hay ||
    match hay with
    | [] => false
    | _ :: t => hasSub t needle

/-- Python `kw.lower() in text`: substring test. -/
def kwIn (kw : String) (text : List Char) : Bool :=
  hasSub text (lowerLC kw.toList)

/-- The `score` accumulated by the three keyword loops of
`is_likely_restaurant`: +3 per high keyword found in the blob, +1 per
medium keyword, −2 per anti keyword. -/
def score (m : Meta) : Int :=
  let text := blob m
  let s1 := HIGH_KEYWORDS.foldl (fun acc kw => if kwIn kw text then acc + 3 else acc) 0
  let s2 := MEDIUM_KEYWORDS.foldl (fun acc kw => if kwIn kw text then acc + 1 else acc) s1
  ANTI_KEYWORDS.foldl (fun acc kw => if kwIn kw text then acc - 2 else acc) s2

/-- Embeds `is_likely_restaurant`'s final threshold mapping. -/
def is_likely_restaurant (m : Meta) : String :=
  if score m ≥ 3 then "likely"
  else if score m ≥ -1 then "maybe"
  else "unlikely"

/-- Modelled from the spec: the spec's §4.2 description of the score says
a keyword appearing in several metadata fields counts once per field
occurrence.  This definition follows those words (per-field counting over
the four fields) for comparison with `score`, which is translated from
the code. -/
def score_perFieldOccurrence (m : Meta) : Int :=
  let fields : List (List Char) :=
    [lowerLC m.title.toList, lowerLC m.description.toList,
     lowerLC m.uploader.toList, lowerLC (joinSpace m.tags)]
  let occ (kw : String) : Int := ((fields.filter (fun f => kwIn kw f)).length : Int)
  3 * (HIGH_KEYWORDS.map occ).sum + (MEDIUM_KEYWORDS.map occ).sum
    - 2 * (ANTI_KEYWORDS.map occ).sum

/-! ## Rate-limited geocoder (geocoder.py)

The Nominatim HTTP call is modelled as an oracle
`net : String → Except Unit (List GeoHit)` from the query string to
either a network error/timeout (`Except.error`, the code's `except`
branch) or the parsed JSON result list.  Wall-clock rate limiting
(`time.sleep`) is real time and is not modelled.  -/

/-- One element of Nominatim's JSON answer; coordinates are kept
abstract as integers since no claim inspects their values. -/
structure GeoHit where
  lat : Int
  lng : Int
  deriving Repr, DecidableEq

/-- A `location` dict (keys may be missing).  A dict with none of the
five keys set is the empty dict, so Python's `if not location` check and
the `if not parts` check collapse to the `parts = []` case here. -/
structure Location where
  specific_address : Option String := none
  neighborhood : Option String := none
  city : Option String := none
  state_or_region : Option String := none
  country : Option String := none
  deriving Repr, DecidableEq

/-- `location.get(key)` truthiness: present and non-empty. -/
def optPart : Option String → List String
  | none => []
  | some s => if s = "" then [] else [s]

/-- The `parts` list built from the available fields, most specific
first. -/
def partsOf (loc : Location) : List String :=
  optPart loc.specific_address ++ optPart loc.neighborhood ++
    optPart loc.city ++ optPart loc.state_or_region ++ optPart loc.country

/-- The `fallback_parts` list: just city and country. -/
def fallbackPartsOf (loc : Location) : List String :=
  optPart loc.city ++ optPart loc.country

/-- Python `', '.join(parts)`. -/
def joinComma (parts : List String) : String :=
  String.intercalate ", " parts

/-- Result of one `geocode_restaurant` call: the returned value and the
list of outbound requests issued (their query strings, in order). -/
structure GeoRes where
  coords : Option (Int × Int)
  requests : List String
  deriving Repr, DecidableEq

/-- Embeds `geocode_restaurant`.  `loc = none` is Python `location`
being `None`/empty (`if not location: return None`).  The whole body
after the rate-limit wait sits in one `try`: a network error on either
request returns `None`. -/
def geocode_restaurant (net : String → Except Unit (List GeoHit))
    (loc : Option Location) : GeoRes :=
  match loc with
  | none => ⟨none, []⟩
  | some l =>
    let parts := partsOf l
    if parts = [] then ⟨none, []⟩
    else
      let query := joinComma parts
      match net query with
      | .error _ => ⟨none, [query]⟩
      | .ok data =>
        match data with
        | d :: _ => ⟨some (d.lat, d.lng), [query]⟩
        | [] =>
          let fparts := fallbackPartsOf l
          if fparts ≠ [] ∧ fparts ≠ parts then
            let fquery := joinComma fparts
            match net fquery with
            | .error _ => ⟨none, [query, fquery]⟩
            | .ok (e :: _) => ⟨some (e.lat, e.lng), [query, fquery]⟩
            | .ok [] => ⟨none, [query, fquery]⟩
          else
            ⟨none, [query]⟩

/-! ## Tracker persistence (downloader.py, `load_tracker` / `save_tracker`)

The primary store (`TRACKER_FILE`) is `Option Tracker` (`none` = file
absent); the GCS backup read (`download_json`) is
`Except String (Option Tracker)`: `error` = unreachable (exception),
`ok none` = blob absent (`download_json` returns `None`),
`ok (some d)` = parsed backup contents. -/

structure StoreEnv where
  primary : Option Tracker
  backup : Except String (Option Tracker)

/-- Result of `load_tracker`: the tracker returned to the caller and the
primary store's contents afterwards. -/
structure LoadRes where
  tracker : Tracker
  primaryAfter : Option Tracker

/-- Embeds `load_tracker`.  `if data:` is Python truthiness: a missing
(`None`) or empty (`{}`) backup does not trigger the restore write. -/
def load_tracker (env : StoreEnv) : LoadRes :=
  match env.primary with
  | some t => ⟨t, some t⟩
  | none =>
    match env.backup with
    | .error _ => ⟨[], none⟩
    | .ok none => ⟨[], none⟩
    | .ok (some d) => if d = [] then ⟨[], none⟩ else ⟨d, some d⟩

/-- Result of `save_tracker`: the primary store's contents afterwards
and the backup failure that was logged, if any.  The result type has no
error case: `save_tracker` never raises. -/
structure SaveRes where
  primaryAfter : Option Tracker
  backupFailureLogged : Option String

/-- Embeds `save_tracker`: the primary write happens unconditionally
first; the GCS upload outcome (`uploadRes`) is caught and only logged on
failure. -/
def save_tracker (uploadRes : Except String Unit) (t : Tracker) : SaveRes :=
  ⟨some t, match uploadRes with | .ok _ => none | .error e => some e⟩

/-! ## Analyzer (analyzer.py, `analyze_video`) -/

/-- One restaurant record produced by the model.  Only the fields the
claims touch are carried; the record's free-text payload is opaque. -/
structure Restaurant where
  name : String
  location : Option Location
  deriving Repr, DecidableEq

/-- The parsed JSON value of the model's response text, as
`json.loads` sees it.  `jarr` is a JSON array of records, `jdict` a
single JSON object (re-wrapped into `[result]` by the code), `jfalsy`
a falsy non-container scalar (`null`, `0`, `""`, `false`), which
`[result] if result else []` turns into `[]`.  (A truthy non-container
scalar cannot be a restaurant record and is outside this model; no
claim depends on it.) -/
inductive GeminiJson where
  | jarr (rs : List Restaurant)
  | jdict (r : Restaurant)
  | jfalsy
  deriving Repr, DecidableEq

/-- The `result` list after the parse-and-coerce block of
`analyze_video`: a `json.JSONDecodeError` (`parsed = none`) yields `[]`
instead of raising, then a non-list value is coerced to a list. -/
def analyze_result (parsed : Option GeminiJson) : List Restaurant :=
  match parsed with
  | none => []
  | some (.jarr rs) => rs
  | some (.jdict r) => [r]
  | some .jfalsy => []

/-- The tail of `analyze_video` as far as the claims observe it: the
returned list and whether the analysis JSON envelope was written to GCS
(`if len(result) > 0`). -/
def analyze_video_model (parsed : Option GeminiJson) : List Restaurant × Bool :=
  let result := analyze_result parsed
  (result, !result.isEmpty)

/-! ## Orchestrator (downloader.py, `handle_process`)

The three external calls are an oracle environment: `extract_metadata`
and `download_video` can raise (`Except.error` = exception, message =
`str(e)`), `analyze_video` either raises or returns its record list.
The model covers the url-present path (the 400 guard on a missing
`url` field precedes everything the claims speak about). -/

/-- `download_video`'s result dict. -/
structure DlRes where
  filename : String
  id : String
  title : String
  uploader : String
  deriving Repr, DecidableEq

/-- Oracle outcomes of the external calls for one request. -/
structure Env where
  meta : Except String Meta
  dl : Except String DlRes
  analysis : Except String (List Restaurant)

/-- Observable outcome of one `/process` request: HTTP code, `status`
field, `category` field (when present), the tracker after the request,
and which external stages ran. -/
structure HRes where
  code : Nat
  status : String
  category : Option String
  tracker : Tracker
  calledMeta : Bool
  calledDownload : Bool
  calledAnalysis : Bool
  rebuildTriggered : Bool
  deriving Repr

/-- Python `if analysis_error:` — `analysis_error` is `None` or
`str(e)`, and the empty string is falsy. -/
def pyTruthyStr : Option String → Bool
  | none => false
  | some s => !(s == "")

/-- Step 6 of `handle_process`: `analysis = []; analysis_error = None;
try: analysis = analyze_video(...) except ... analysis_error = str(e)`.
Returns the pair `(analysis, analysis_error)`. -/
def analysisOutcome : Except String (List Restaurant) → List Restaurant × Option String
  | .ok a => (a, none)
  | .error msg => ([], some msg)

/-- Step 8 of `handle_process`: the final category. -/
def categoryOf (ae : List Restaurant × Option String) : String :=
  if pyTruthyStr ae.2 then "analysis_failed"
  else if ae.1.length > 0 then "restaurant"
  else "not_restaurant"

/-- The tracker value written on the `unlikely` (filtered-out) path. -/
def unlikelyEntry (m : Meta) (chat_name sender : String) : Entry :=
  ⟨none, m.title, m.uploader, sender, chat_name,
   "skipped_not_restaurant", is_likely_restaurant m, none, none, none⟩

/-- The tracker value written at step 9 (after download, analysis and
cleanup), for filter result `fr` and analysis outcome `ae`. -/
def successEntry (fr : String) (d : DlRes) (chat_name sender : String)
    (ae : List Restaurant × Option String) : Entry :=
  ⟨some d.filename, d.title, d.uploader, sender, chat_name,
   categoryOf ae, fr, some ae.1.length,
   if !ae.1.isEmpty then some (d.id ++ "_analysis.json") else none, ae.2⟩

/-- Embeds `handle_process` (steps 1–10): dedup gate, metadata extract,
keyword pre-filter, download, Gemini analysis with its exception caught,
category computation, tracker write, rebuild trigger.  File cleanup
(step 7) touches only `/tmp` artifacts and is not observable here. -/
def handle_process (env : Env) (url : List Char) (chat_name sender : String)
    (tracker : Tracker) : HRes :=
  if is_duplicate url tracker then
    ⟨200, "skipped", none, tracker, false, false, false, false⟩
  else
    match env.meta with
    | .error _ => ⟨500, "error", none, tracker, true, false, false, false⟩
    | .ok meta =>
      if is_likely_restaurant meta = "unlikely" then
        ⟨200, "skipped", none,
         trackerInsert tracker url (unlikelyEntry meta chat_name sender),
         true, false, false, false⟩
      else
        match env.dl with
        | .error _ => ⟨500, "error", none, tracker, true, true, false, false⟩
        | .ok dl =>
          let ae := analysisOutcome env.analysis
          ⟨200, "success", some (categoryOf ae),
           trackerInsert tracker url
             (successEntry (is_likely_restaurant meta) dl chat_name sender ae),
           true, true, true, categoryOf ae == "restaurant"⟩

/-! ## Concrete sample inputs (used by witnesses and counterexamples) -/

/-- A tracked URL. -/
def urlA : List Char := "https://tiktok.com/t/abc".toList

/-- The same URL with a query string: same normalized form as `urlA`. -/
def urlAq : List Char := "https://tiktok.com/t/abc?x=1".toList

/-- A fresh URL, not equivalent to `urlA`. -/
def urlB : List Char := "https://tiktok.com/t/xyz".toList

/-- A sample tracker value. -/
def entryA : Entry :=
  ⟨none, "t", "u", "s", "c", "skipped_not_restaurant", "unlikely", none, none, none⟩

/-- A one-entry tracker holding `urlA`. -/
def trkA : Tracker := [(urlA, entryA)]

/-- Metadata whose title carries one high-confidence keyword. -/
def metaRamen : Meta := ⟨"vid1", "best ramen spot in austin", "", "", []⟩

/-- Metadata hitting two anti-keywords: filtered out as `unlikely`. -/
def metaGaming : Meta := ⟨"vid2", "gaming", "makeup", "", []⟩

/-- A download result. -/
def dlA : DlRes := ⟨"vid1.mp4", "vid1", "best ramen spot in austin", "chef"⟩

/-- Oracle where every external call fails (never reached on the
duplicate path). -/
def envNoop : Env := ⟨.error "down", .error "down", .ok []⟩

/-- Oracle where metadata extraction raises. -/
def envMetaFail : Env := ⟨.error "boom", .error "boom", .ok []⟩

/-- Oracle for a full successful run with an empty analysis result. -/
def envOkEmpty : Env := ⟨.ok metaRamen, .ok dlA, .ok []⟩

/-- Oracle where the analysis call raises an exception whose `str(e)`
is the empty string. -/
def envAnalysisEmptyMsg : Env := ⟨.ok metaRamen, .ok dlA, .error ""⟩

/-- Metadata with the same high-confidence keyword in two fields. -/
def metaTwoFields : Meta := ⟨"", "ramen", "ramen", "", []⟩

/-- Nominatim oracle that always answers with an empty result list. -/
def netNoHits : String → Except Unit (List GeoHit) := fun _ => .ok []

/-- Nominatim oracle that always fails (network error / timeout). -/
def netDown : String → Except Unit (List GeoHit) := fun _ => .error ()

/-- A location with a neighborhood and a city but no country. -/
def locNoCountry : Location := { neighborhood := some "Shibuya", city := some "Tokyo" }

/-- A location with address, city and country. -/
def locFull : Location :=
  { specific_address := some "123 Main St", city := some "Austin", country := some "USA" }

/-- Store state: primary file absent, backup reachable but holding an
empty tracker. -/
def storeEmptyBackup : StoreEnv := ⟨none, .ok (some [])⟩

/-- Store state: primary file absent, backup reachable with data. -/
def storeBackupA : StoreEnv := ⟨none, .ok (some trkA)⟩

/-! ## Helper lemmas: dedup tracker -/

theorem is_duplicate_iff (url : List Char) (t : Tracker) :
    is_duplicate url t = true ↔
      ∃ k ∈ keys t, normalize_url k = normalize_url url := by
  unfold is_duplicate keys
  rw [List.any_eq_true]
  constructor
  · rintro ⟨p, hp, hbeq⟩
    exact ⟨p.1, List.mem_map_of_mem Prod.fst hp, by simpa using hbeq⟩
  · rintro ⟨k, hk, heq⟩
    rcases List.mem_map.mp hk with ⟨p, hp, rfl⟩
    exact ⟨p, hp, by simpa using heq⟩

theorem any_key_eq_false_of_not_dup {url : List Char} {t : Tracker}
    (h : is_duplicate url t = false) :
    t.any (fun p => p.1 == url) = false := by
  by_contra hc
  rw [Bool.not_eq_false, List.any_eq_true] at hc
  rcases hc with ⟨p, hp, hbeq⟩
  have hkey : p.1 = url := by simpa using hbeq
  have : is_duplicate url t = true := by
    rw [is_duplicate, List.any_eq_true]
    exact ⟨p, hp, by simp [hkey]⟩
  simp [h] at this

theorem trackerInsert_fresh (t : Tracker) (url : List Char) (e : Entry)
    (h : t.any (fun p => p.1 == url) = false) :
    trackerInsert t url e = t ++ [(url, e)] := by
  simp [trackerInsert, h]

theorem is_duplicate_append_self (url : List Char) (t : Tracker) (e : Entry) :
    is_duplicate url (t ++ [(url, e)]) = true := by
  rw [is_duplicate, List.any_eq_true]
  exact ⟨(url, e), by simp, by simp⟩

theorem lookup_append_fresh (t : Tracker) (url : List Char) (e : Entry)
    (h : t.any (fun p => p.1 == url) = false) :
    lookup (t ++ [(url, e)]) url = some e := by
  induction t with
  | nil => simp [lookup, List.find?]
  | cons p rest ih =>
    simp only [List.any_cons, Bool.or_eq_false_iff] at h
    have := ih h.2
    simp only [lookup, List.cons_append, List.find?] at this ⊢
    rw [h.1]
    exact this

/-! Branch equations for `handle_process`. -/

theorem hp_dup (env : Env) (url : List Char) (chat sender : String)
    (t : Tracker) (hdup : is_duplicate url t = true) :
    handle_process env url chat sender t =
      ⟨200, "skipped", none, t, false, false, false, false⟩ := by
  unfold handle_process
  simp [hdup]

theorem hp_meta_error (env : Env) (url : List Char) (chat sender : String)
    (t : Tracker) (msg : String) (hdup : is_duplicate url t = false)
    (hm : env.meta = .error msg) :
    handle_process env url chat sender t =
      ⟨500, "error", none, t, true, false, false, false⟩ := by
  unfold handle_process
  simp [hdup, hm]

theorem hp_unlikely (env : Env) (url : List Char) (chat sender : String)
    (t : Tracker) (m : Meta) (hdup : is_duplicate url t = false)
    (hm : env.meta = .ok m) (hf : is_likely_restaurant m = "unlikely") :
    handle_process env url chat sender t =
      ⟨200, "skipped", none, trackerInsert t url (unlikelyEntry m chat sender),
       true, false, false, false⟩ := by
  unfold handle_process
  simp [hdup, hm, hf]

theorem hp_dl_error (env : Env) (url : List Char) (chat sender : String)
    (t : Tracker) (m : Meta) (msg : String) (hdup : is_duplicate url t = false)
    (hm : env.meta = .ok m) (hf : is_likely_restaurant m ≠ "unlikely")
    (hd : env.dl = .error msg) :
    handle_process env url chat sender t =
      ⟨500, "error", none, t, true, true, false, false⟩ := by
  unfold handle_process
  simp [hdup, hm, hf, hd]

theorem hp_success (env : Env) (url : List Char) (chat sender : String)
    (t : Tracker) (m : Meta) (d : DlRes) (hdup : is_duplicate url t = false)
    (hm : env.meta = .ok m) (hf : is_likely_restaurant m ≠ "unlikely")
    (hd : env.dl = .ok d) :
    handle_process env url chat sender t =
      ⟨200, "success", some (categoryOf (analysisOutcome env.analysis)),
       trackerInsert t url
         (successEntry (is_likely_restaurant m) d chat sender
           (analysisOutcome env.analysis)),
       true, true, true,
       categoryOf (analysisOutcome env.analysis) == "restaurant"⟩ := by
  unfold handle_process
  simp [hdup, hm, hf, hd]

theorem handle_process_tracker_shape (env : Env) (url : List Char)
    (chat sender : String) (t : Tracker) (h : is_duplicate url t = false) :
    (handle_process env url chat sender t).tracker = t ∨
      ∃ e, (handle_process env url chat sender t).tracker = t ++ [(url, e)] := by
  have hfresh := any_key_eq_false_of_not_dup h
  unfold handle_process
  rw [h]
  cases hm : env.meta with
  | error msg => simp
  | ok m =>
    by_cases hf : is_likely_restaurant m = "unlikely"
    · simp [hf, trackerInsert_fresh _ _ _ hfresh]
    · cases hd : env.dl with
      | error msg => simp [hf]
      | ok d => simp [hf, trackerInsert_fresh _ _ _ hfresh]

theorem pairwise_norm_preserved (t : Tracker) (url : List Char) (e : Entry)
    (h : is_duplicate url t = false)
    (hp : (keys t).Pairwise fun a b => normalize_url a ≠ normalize_url b) :
    (keys (t ++ [(url, e)])).Pairwise
      fun a b => normalize_url a ≠ normalize_url b := by
  have hk : keys (t ++ [(url, e)]) = keys t ++ [url] := by simp [keys]
  rw [hk, List.pairwise_append]
  refine ⟨hp, List.pairwise_singleton _ _, ?_⟩
  intro a ha b hb
  have hb' : b = url := by simpa using hb
  subst hb'
  intro hc
  exact absurd ((is_duplicate_iff _ t).mpr ⟨a, ha, hc⟩) (by simp [h])

/-! ## Claim theorems -/

/-- C1: `is_duplicate url tracker` is true iff some key already in the
tracker has the same normalized form as `url`; when it is true the
`/process` handler answers 200 with status `skipped`, leaves the tracker
unchanged and invokes neither metadata extraction nor download nor
analysis; and a tracker whose keys have pairwise-distinct normalized
forms keeps that property across any `/process` request, so the tracker
never holds two entries with the same normalized URL. -/
theorem C1_at_most_once_processing (env : Env) (url : List Char)
    (chat sender : String) (tracker : Tracker) :
    (is_duplicate url tracker = true ↔
       ∃ k ∈ keys tracker, normalize_url k = normalize_url url)
    ∧ (is_duplicate url tracker = true →
       (handle_process env url chat sender tracker).code = 200
       ∧ (handle_process env url chat sender tracker).status = "skipped"
       ∧ (handle_process env url chat sender tracker).tracker = tracker
       ∧ (handle_process env url chat sender tracker).calledMeta = false
       ∧ (handle_process env url chat sender tracker).calledDownload = false
       ∧ (handle_process env url chat sender tracker).calledAnalysis = false)
    ∧ ((keys tracker).Pairwise (fun a b => normalize_url a ≠ normalize_url b) →
       (keys (handle_process env url chat sender tracker).tracker).Pairwise
         (fun a b => normalize_url a ≠ normalize_url b)) := by
  refine ⟨is_duplicate_iff url tracker, ?_, ?_⟩
  · intro h
    rw [hp_dup env url chat sender tracker h]
    exact ⟨rfl, rfl, rfl, rfl, rfl, rfl⟩
  · intro hp
    cases hdup : is_duplicate url tracker with
    | true =>
      rw [hp_dup env url chat sender tracker hdup]
      exact hp
    | false =>
      rcases handle_process_tracker_shape env url chat sender tracker hdup with
        hsh | ⟨e, hsh⟩
      · rw [hsh]; exact hp
      · rw [hsh]; exact pairwise_norm_preserved tracker url e hdup hp

/-- Witness for C1 at a concrete input: resubmitting `urlA` with a query
string attached is detected as a duplicate, skips with the tracker
untouched and no external calls made, and distinctness of normalized
keys is preserved. -/
theorem C1_witness :
    is_duplicate urlAq trkA = true
    ∧ (handle_process envNoop urlAq "c" "s" trkA).status = "skipped"
    ∧ (handle_process envNoop urlAq "c" "s" trkA).tracker = trkA
    ∧ (handle_process envNoop urlAq "c" "s" trkA).calledMeta = false
    ∧ (keys (handle_process envNoop urlAq "c" "s" trkA).tracker).Pairwise
        (fun a b => normalize_url a ≠ normalize_url b) := by
  have h := C1_at_most_once_processing envNoop urlAq "c" "s" trkA
  have hdup : is_duplicate urlAq trkA = true := by decide
  have hpw : (keys trkA).Pairwise
      (fun a b => normalize_url a ≠ normalize_url b) := by
    simp [trkA, keys]
  exact ⟨hdup, (h.2.1 hdup).2.1, (h.2.1 hdup).2.2.1, (h.2.1 hdup).2.2.2.1,
    h.2.2 hpw⟩

/-- C2: on a non-duplicate submission the response is 500 exactly when
metadata extraction raises or (the filter having passed) download
raises, and then the tracker is unchanged; every 200 outcome appends
exactly one entry for the submitted URL before responding; and those
500 paths are the only terminal paths without a tracker write. -/
theorem C2_tracker_write_paths (env : Env) (url : List Char)
    (chat sender : String) (tracker : Tracker)
    (h : is_duplicate url tracker = false) :
    ((handle_process env url chat sender tracker).code = 500 ∨
      (handle_process env url chat sender tracker).code = 200)
    ∧ ((handle_process env url chat sender tracker).code = 500 ↔
        (∃ msg, env.meta = .error msg) ∨
          (∃ m, env.meta = .ok m ∧ is_likely_restaurant m ≠ "unlikely" ∧
            ∃ msg, env.dl = .error msg))
    ∧ ((handle_process env url chat sender tracker).code = 500 →
        (handle_process env url chat sender tracker).tracker = tracker)
    ∧ ((handle_process env url chat sender tracker).code = 200 →
        ∃ e, (handle_process env url chat sender tracker).tracker
              = tracker ++ [(url, e)]
          ∧ lookup (handle_process env url chat sender tracker).tracker url
              = some e)
    ∧ ((handle_process env url chat sender tracker).tracker = tracker ↔
        (handle_process env url chat sender tracker).code = 500) := by
  have hfresh := any_key_eq_false_of_not_dup h
  have happneq : ∀ e : Entry, tracker ++ [(url, e)] ≠ tracker := by
    intro e hc
    have := congrArg List.length hc
    simp at this
  cases hm : env.meta with
  | error msg =>
    rw [hp_meta_error env url chat sender tracker msg h hm]
    dsimp only
    refine ⟨Or.inl rfl, ⟨fun _ => Or.inl ⟨msg, rfl⟩, fun _ => rfl⟩,
      fun _ => rfl, ?_, ⟨fun _ => rfl, fun _ => rfl⟩⟩
    intro hc
    exact absurd hc (by decide)
  | ok m =>
    by_cases hf : is_likely_restaurant m = "unlikely"
    · rw [hp_unlikely env url chat sender tracker m h hm hf,
        trackerInsert_fresh tracker url _ hfresh]
      dsimp only
      refine ⟨Or.inr rfl, ?_, ?_, ?_, ?_⟩
      · constructor
        · intro hc; exact absurd hc (by decide)
        · rintro (⟨msg, hmsg⟩ | ⟨m', hm', hf', _⟩)
          · simp at hmsg
          · simp only [Except.ok.injEq] at hm'
            subst hm'
            exact absurd hf hf'
      · intro hc; exact absurd hc (by decide)
      · intro _
        exact ⟨unlikelyEntry m chat sender, rfl,
          lookup_append_fresh tracker url _ hfresh⟩
      · constructor
        · intro hc; exact absurd hc (happneq _)
        · intro hc; exact absurd hc (by decide)
    · cases hd : env.dl with
      | error msg =>
        rw [hp_dl_error env url chat sender tracker m msg h hm hf hd]
        dsimp only
        refine ⟨Or.inl rfl, ⟨fun _ => Or.inr ⟨m, rfl, hf, msg, rfl⟩, fun _ => rfl⟩,
          fun _ => rfl, ?_, ⟨fun _ => rfl, fun _ => rfl⟩⟩
        intro hc
        exact absurd hc (by decide)
      | ok d =>
        rw [hp_success env url chat sender tracker m d h hm hf hd,
          trackerInsert_fresh tracker url _ hfresh]
        dsimp only
        refine ⟨Or.inr rfl, ?_, ?_, ?_, ?_⟩
        · constructor
          · intro hc; exact absurd hc (by decide)
          · rintro (⟨msg, hmsg⟩ | ⟨m', hm', hf', msg, hd'⟩)
            · simp at hmsg
            · simp at hd'
        · intro hc; exact absurd hc (by decide)
        · intro _
          exact ⟨successEntry (is_likely_restaurant m) d chat sender
              (analysisOutcome env.analysis), rfl,
            lookup_append_fresh tracker url _ hfresh⟩
        · constructor
          · intro hc; exact absurd hc (happneq _)
          · intro hc; exact absurd hc (by decide)

/-- Witness for C2 at a concrete input: a failing metadata extraction on
a fresh URL returns 500 and leaves the tracker unchanged. -/
theorem C2_witness :
    is_duplicate urlB trkA = false
    ∧ (handle_process envMetaFail urlB "c" "s" trkA).code = 500
    ∧ (handle_process envMetaFail urlB "c" "s" trkA).tracker = trkA := by
  have hdup : is_duplicate urlB trkA = false := by decide
  have h := C2_tracker_write_paths envMetaFail urlB "c" "s" trkA hdup
  have h500 : (handle_process envMetaFail urlB "c" "s" trkA).code = 500 :=
    h.2.1.mpr (Or.inl ⟨"boom", rfl⟩)
  exact ⟨hdup, h500, h.2.2.1 h500⟩

/-- C3 (amended): for every run that reaches the persist step, the
tracker entry records `analysis_error = str(e)` and
`restaurants_found = 0` when the analysis call raised, with category
`analysis_failed` when the exception's string form is non-empty — an
exception carrying an empty message is treated as no error by the
`if analysis_error:` truthiness test and the category falls back to the
record count, i.e. `not_restaurant`; on a non-raising analysis the
category is `restaurant` iff one or more records were produced, else
`not_restaurant`, with `restaurants_found` equal to the number of
records; in every case the exception is caught and the pipeline reaches
persistence (a 200 response with the entry written). -/
theorem C3_final_category (env : Env) (url : List Char) (chat sender : String)
    (tracker : Tracker) (m : Meta) (d : DlRes)
    (hdup : is_duplicate url tracker = false)
    (hm : env.meta = .ok m)
    (hf : is_likely_restaurant m ≠ "unlikely")
    (hd : env.dl = .ok d) :
    (handle_process env url chat sender tracker).code = 200
    ∧ ∃ e : Entry,
        (handle_process env url chat sender tracker).tracker = tracker ++ [(url, e)]
        ∧ (∀ msg, env.analysis = .error msg →
            e.analysis_error = some msg ∧ e.restaurants_found = some 0
            ∧ (msg ≠ "" → e.category = "analysis_failed")
            ∧ (msg = "" → e.category = "not_restaurant"))
        ∧ (∀ rs, env.analysis = .ok rs →
            e.analysis_error = none ∧ e.restaurants_found = some rs.length
            ∧ (rs.length > 0 → e.category = "restaurant")
            ∧ (rs.length = 0 → e.category = "not_restaurant")) := by
  have hfresh := any_key_eq_false_of_not_dup hdup
  rw [hp_success env url chat sender tracker m d hdup hm hf hd,
    trackerInsert_fresh tracker url _ hfresh]
  refine ⟨rfl, successEntry (is_likely_restaurant m) d chat sender
      (analysisOutcome env.analysis), rfl, ?_, ?_⟩
  · intro msg hmsg
    rw [hmsg]
    refine ⟨rfl, rfl, ?_, ?_⟩
    · intro hne
      have hb : (msg == "") = false := beq_eq_false_iff_ne.mpr hne
      simp [successEntry, categoryOf, analysisOutcome, pyTruthyStr, hb]
    · intro he
      subst he
      simp [successEntry, categoryOf, analysisOutcome, pyTruthyStr]
  · intro rs hrs
    rw [hrs]
    refine ⟨rfl, rfl, ?_, ?_⟩
    · intro hlen
      simp [successEntry, categoryOf, analysisOutcome, pyTruthyStr, hlen]
    · intro hlen
      simp [successEntry, categoryOf, analysisOutcome, pyTruthyStr, hlen]

/-- Witness for C3 at a concrete input: a successful run with an empty
analysis record list persists an entry with category `not_restaurant`
and `restaurants_found = 0`. -/
theorem C3_witness :
    (handle_process envOkEmpty urlB "c" "s" []).code = 200
    ∧ (handle_process envOkEmpty urlB "c" "s" []).tracker
        = [] ++ [(urlB, successEntry "likely" dlA "c" "s" ([], none))] := by
  have h := C3_final_category envOkEmpty urlB "c" "s" [] metaRamen dlA
    (by decide) rfl (by decide) rfl
  exact ⟨h.1, rfl⟩

/-- Counterexample to C3 as stated: when the analysis call raises an
exception whose `str(e)` is the empty string (`Except.error ""`), the
code's `if analysis_error:` truthiness test does not fire and the
persisted category is `not_restaurant`, not `analysis_failed`, even
though the analysis call raised. -/
theorem C3_counterexample :
    envAnalysisEmptyMsg.analysis = Except.error ""
    ∧ (handle_process envAnalysisEmptyMsg urlB "c" "s" []).category
        = some "not_restaurant"
    ∧ (handle_process envAnalysisEmptyMsg urlB "c" "s" []).category
        ≠ some "analysis_failed" := by
  refine ⟨rfl, by decide, by decide⟩

/-- C10: a model response that is not valid JSON (`parsed = none`)
makes `analyze_video` return the empty list instead of raising, and no
analysis envelope is persisted; the orchestrator, receiving that empty
list as a non-raising analysis result, records category
`not_restaurant` with no `analysis_file`, writes the tracker entry, and
any resubmission of the URL is a duplicate that skips without invoking
metadata extraction again. -/
theorem C10_invalid_json_not_retried (env env2 : Env) (url : List Char)
    (chat sender : String) (tracker : Tracker) (m : Meta) (d : DlRes)
    (hdup : is_duplicate url tracker = false)
    (hm : env.meta = .ok m)
    (hf : is_likely_restaurant m ≠ "unlikely")
    (hd : env.dl = .ok d)
    (ha : env.analysis = .ok (analyze_result none)) :
    analyze_result none = []
    ∧ (analyze_video_model none).2 = false
    ∧ (handle_process env url chat sender tracker).code = 200
    ∧ (handle_process env url chat sender tracker).category
        = some "not_restaurant"
    ∧ (∃ e, lookup (handle_process env url chat sender tracker).tracker url
          = some e
        ∧ e.category = "not_restaurant" ∧ e.analysis_file = none
        ∧ e.analysis_error = none)
    ∧ is_duplicate url (handle_process env url chat sender tracker).tracker
        = true
    ∧ (handle_process env2 url chat sender
        (handle_process env url chat sender tracker).tracker).status = "skipped"
    ∧ (handle_process env2 url chat sender
        (handle_process env url chat sender tracker).tracker).tracker
        = (handle_process env url chat sender tracker).tracker
    ∧ (handle_process env2 url chat sender
        (handle_process env url chat sender tracker).tracker).calledMeta
        = false := by
  have hfresh := any_key_eq_false_of_not_dup hdup
  have ha' : env.analysis = .ok [] := ha
  rw [hp_success env url chat sender tracker m d hdup hm hf hd,
    trackerInsert_fresh tracker url _ hfresh, ha']
  have hdup2 : is_duplicate url
      (tracker ++ [(url, successEntry (is_likely_restaurant m) d chat sender
        (analysisOutcome (.ok [])))]) = true :=
    is_duplicate_append_self url tracker _
  rw [hp_dup env2 url chat sender _ hdup2]
  refine ⟨rfl, rfl, rfl, rfl, ?_, hdup2, rfl, rfl, rfl⟩
  exact ⟨successEntry (is_likely_restaurant m) d chat sender
      (analysisOutcome (.ok [])),
    lookup_append_fresh tracker url _ hfresh, rfl, rfl, rfl⟩

/-- Witness for C10 at a concrete input. -/
theorem C10_witness :
    (handle_process envOkEmpty urlB "c" "s" []).category
        = some "not_restaurant"
    ∧ is_duplicate urlB (handle_process envOkEmpty urlB "c" "s" []).tracker
        = true
    ∧ (handle_process envNoop urlB "c" "s"
        (handle_process envOkEmpty urlB "c" "s" []).tracker).status
        = "skipped" := by
  have h := C10_invalid_json_not_retried envOkEmpty envNoop urlB "c" "s" []
    metaRamen dlA (by decide) rfl (by decide) rfl rfl
  exact ⟨h.2.2.2.1, h.2.2.2.2.2.1, h.2.2.2.2.2.2.1⟩

/-! ## Helper lemmas: scorer -/

theorem foldl_kw_count (text : List Char) (w : Int) (l : List String) :
    ∀ init : Int,
      l.foldl (fun acc kw => if kwIn kw text then acc + w else acc) init
        = init + w * ((l.filter (fun kw => kwIn kw text)).length : Int) := by
  induction l with
  | nil => intro init; simp
  | cons a t ih =>
    intro init
    cases hp : kwIn a text with
    | true =>
      simp only [List.foldl_cons, hp, if_true, List.filter_cons, ih,
        List.length_cons]
      push_cast
      ring
    | false =>
      simp only [List.foldl_cons, hp, if_false, List.filter_cons, Bool.false_eq_true,
        ite_false, ih]

theorem foldl_kw_count_sub (text : List Char) (l : List String) :
    ∀ init : Int,
      l.foldl (fun acc kw => if kwIn kw text then acc - 2 else acc) init
        = init - 2 * ((l.filter (fun kw => kwIn kw text)).length : Int) := by
  induction l with
  | nil => intro init; simp
  | cons a t ih =>
    intro init
    cases hp : kwIn a text with
    | true =>
      simp only [List.foldl_cons, hp, if_true, List.filter_cons, ih,
        List.length_cons]
      push_cast
      ring
    | false =>
      simp only [List.foldl_cons, hp, if_false, List.filter_cons, Bool.false_eq_true,
        ite_false, ih]

theorem verdict_cases (m : Meta) :
    (score m ≥ 3 ∧ is_likely_restaurant m = "likely")
    ∨ (-1 ≤ score m ∧ score m < 3 ∧ is_likely_restaurant m = "maybe")
    ∨ (score m < -1 ∧ is_likely_restaurant m = "unlikely") := by
  unfold is_likely_restaurant
  by_cases h3 : score m ≥ 3
  · exact Or.inl ⟨h3, if_pos h3⟩
  · by_cases h1 : score m ≥ -1
    · refine Or.inr (Or.inl ⟨h1, by omega, ?_⟩)
      rw [if_neg h3, if_pos h1]
    · refine Or.inr (Or.inr ⟨by omega, ?_⟩)
      rw [if_neg h3, if_neg h1]

/-- C4 (amended): the relevance score counts each keyword at most once:
the four metadata fields are concatenated into one blob and each keyword
contributes its weight exactly once when it occurs anywhere in that
blob, irrespective of how many fields contain it — the score is
3·|high keywords present| + |medium keywords present| − 2·|anti keywords
present|, presence being a substring test on the concatenated blob. -/
theorem C4_score_counts_once (m : Meta) :
    score m
      = 3 * ((HIGH_KEYWORDS.filter (fun kw => kwIn kw (blob m))).length : Int)
        + ((MEDIUM_KEYWORDS.filter (fun kw => kwIn kw (blob m))).length : Int)
        - 2 * ((ANTI_KEYWORDS.filter (fun kw => kwIn kw (blob m))).length : Int) := by
  unfold score
  dsimp only
  rw [foldl_kw_count, foldl_kw_count, foldl_kw_count_sub]
  ring

set_option maxRecDepth 8192 in
/-- Counterexample to C4 as stated: the high-confidence keyword `ramen`
occurs in two fields (title and description) of `metaTwoFields`, so
per-field counting as claimed would give 2·3 = 6, but the code scores
the blob once, giving 3. -/
theorem C4_counterexample :
    score metaTwoFields = 3
    ∧ score_perFieldOccurrence metaTwoFields = 6
    ∧ score metaTwoFields ≠ score_perFieldOccurrence metaTwoFields :=
  ⟨by decide, by decide, by decide⟩

/-- C6: the verdict mapping of the scorer — with the code's weights
(+3 high, +1 medium, −2 anti) the verdict is `likely` iff score ≥ 3,
`maybe` iff −1 ≤ score < 3 and `unlikely` iff score < −1; and at the
claim's concrete instances: one high-confidence keyword alone scores 3
(`likely`), one medium plus one anti keyword scores −1 (`maybe`), two
anti keywords alone score −4 (`unlikely`). -/
theorem C6_verdict_mapping (m : Meta) :
    ((is_likely_restaurant m = "likely" ↔ score m ≥ 3)
     ∧ (is_likely_restaurant m = "maybe" ↔ -1 ≤ score m ∧ score m < 3)
     ∧ (is_likely_restaurant m = "unlikely" ↔ score m < -1))
    ∧ score ⟨"", "omakase", "", "", []⟩ = 3
    ∧ is_likely_restaurant ⟨"", "omakase", "", "", []⟩ = "likely"
    ∧ score ⟨"", "lunch", "gaming", "", []⟩ = -1
    ∧ is_likely_restaurant ⟨"", "lunch", "gaming", "", []⟩ = "maybe"
    ∧ score metaGaming = -4
    ∧ is_likely_restaurant metaGaming = "unlikely" := by
  refine ⟨⟨?_, ?_, ?_⟩, by decide, by decide, by decide, by decide,
    by decide, by decide⟩
  · constructor
    · intro he
      rcases verdict_cases m with ⟨hs, _⟩ | ⟨_, _, he'⟩ | ⟨_, he'⟩
      · exact hs
      · rw [he'] at he; exact absurd he (by decide)
      · rw [he'] at he; exact absurd he (by decide)
    · intro hs
      rcases verdict_cases m with ⟨_, he⟩ | ⟨_, hlt, _⟩ | ⟨hlt, _⟩
      · exact he
      · omega
      · omega
  · constructor
    · intro he
      rcases verdict_cases m with ⟨_, he'⟩ | ⟨hge, hlt, _⟩ | ⟨_, he'⟩
      · rw [he'] at he; exact absurd he (by decide)
      · exact ⟨hge, hlt⟩
      · rw [he'] at he; exact absurd he (by decide)
    · rintro ⟨hge, hlt⟩
      rcases verdict_cases m with ⟨hs, _⟩ | ⟨_, _, he⟩ | ⟨hs, _⟩
      · omega
      · exact he
      · omega
  · constructor
    · intro he
      rcases verdict_cases m with ⟨_, he'⟩ | ⟨_, _, he'⟩ | ⟨hlt, _⟩
      · rw [he'] at he; exact absurd he (by decide)
      · rw [he'] at he; exact absurd he (by decide)
      · exact hlt
    · intro hs
      rcases verdict_cases m with ⟨hge, _⟩ | ⟨hge, _, _⟩ | ⟨_, he⟩
      · omega
      · omega
      · exact he

/-! ## Helper lemmas: URL normalizer -/

theorem takeWhile_append_all (p : Char → Bool) (l r : List Char)
    (h : ∀ c ∈ l, p c = true) :
    (l ++ r).takeWhile p = l ++ r.takeWhile p := by
  induction l with
  | nil => simp
  | cons a t ih =>
    have ha := h a (by simp)
    simp only [List.cons_append, List.takeWhile_cons, ha, if_true]
    rw [ih fun c hc => h c (by simp [hc])]

theorem takeWhile_all (p : Char → Bool) (l : List Char)
    (h : ∀ c ∈ l, p c = true) :
    l.takeWhile p = l := by
  have := takeWhile_append_all p l [] h
  simpa using this

theorem dropWhile_slash_replicate (m : Nat) (l : List Char) :
    (List.replicate m '/' ++ l).dropWhile (fun c => c == '/')
      = l.dropWhile (fun c => c == '/') := by
  induction m with
  | zero => simp
  | succ n ih =>
    rw [List.replicate_succ, List.cons_append, List.dropWhile_cons]
    simp [ih]

theorem rstripSlash_append_replicate (core : List Char) (m : Nat) :
    rstripSlash (core ++ List.replicate m '/') = rstripSlash core := by
  unfold rstripSlash
  rw [List.reverse_append, List.reverse_replicate, dropWhile_slash_replicate]

theorem normalize_url_extend (core : List Char) (m : Nat) (q : List Char)
    (hq : ('?' : Char) ∉ core) (hh : ('#' : Char) ∉ core)
    (hqf : q = [] ∨ (∃ r, q = '?' :: r) ∨ (∃ r, q = '#' :: r)) :
    normalize_url (core ++ List.replicate m '/' ++ q) = normalize_url core := by
  have hcoreq : ∀ c ∈ core, (!(c == '?')) = true := by
    intro c hc
    have : c ≠ '?' := fun he => hq (he ▸ hc)
    simp [this]
  have hcoreh : ∀ c ∈ core, (!(c == '#')) = true := by
    intro c hc
    have : c ≠ '#' := fun he => hh (he ▸ hc)
    simp [this]
  have hrepq : ∀ c ∈ List.replicate m '/', (!(c == '?')) = true := by
    intro c hc
    rw [List.eq_of_mem_replicate hc]
    decide
  have hreph : ∀ c ∈ List.replicate m '/', (!(c == '#')) = true := by
    intro c hc
    rw [List.eq_of_mem_replicate hc]
    decide
  have hrhs : normalize_url core
      = rstripSlash core := by
    unfold normalize_url
    rw [takeWhile_all _ core hcoreq, takeWhile_all _ core hcoreh]
  rw [hrhs]
  unfold normalize_url
  rw [List.append_assoc, takeWhile_append_all _ core _ hcoreq,
    takeWhile_append_all _ (List.replicate m '/') _ hrepq]
  rcases hqf with rfl | ⟨r, rfl⟩ | ⟨r, rfl⟩
  · rw [List.takeWhile_nil, List.append_nil,
      takeWhile_append_all _ core _ hcoreh, takeWhile_all _ _ hreph,
      rstripSlash_append_replicate]
  · have h1 : ('?' :: r).takeWhile (fun c => !(c == '?')) = [] := by
      rw [List.takeWhile_cons]
      simp
    rw [h1, List.append_nil, takeWhile_append_all _ core _ hcoreh,
      takeWhile_all _ _ hreph, rstripSlash_append_replicate]
  · have h1 : ('#' :: r).takeWhile (fun c => !(c == '?'))
        = '#' :: r.takeWhile (fun c => !(c == '?')) := by
      rw [List.takeWhile_cons]
      simp
    have h2 : ('#' :: r.takeWhile (fun c => !(c == '?'))).takeWhile
        (fun c => !(c == '#')) = [] := by
      rw [List.takeWhile_cons]
      simp
    rw [h1, takeWhile_append_all _ core _ hcoreh,
      takeWhile_append_all _ (List.replicate m '/') _ hreph, h2,
      List.append_nil, rstripSlash_append_replicate]

/-- C7: `normalize_url` (a deterministic, pure, total Lean function:
split at the first `?` and first `#`, take the prefix, strip trailing
`/`) maps any two URLs that differ only in query string, fragment, or
trailing slashes — i.e. that share a core free of `?` and `#` and then
carry only trailing slashes followed by an optional `?…` query or `#…`
fragment — to byte-identical output. -/
theorem C7_normalize_equivalence (core q₁ q₂ : List Char) (m₁ m₂ : Nat)
    (hq : ('?' : Char) ∉ core) (hh : ('#' : Char) ∉ core)
    (h₁ : q₁ = [] ∨ (∃ r, q₁ = '?' :: r) ∨ (∃ r, q₁ = '#' :: r))
    (h₂ : q₂ = [] ∨ (∃ r, q₂ = '?' :: r) ∨ (∃ r, q₂ = '#' :: r)) :
    normalize_url (core ++ List.replicate m₁ '/' ++ q₁)
      = normalize_url (core ++ List.replicate m₂ '/' ++ q₂) := by
  rw [normalize_url_extend core m₁ q₁ hq hh h₁,
    normalize_url_extend core m₂ q₂ hq hh h₂]

/-- Witness for C7 at concrete inputs: the same core URL once with a
query string and once with two trailing slashes and a fragment. -/
theorem C7_witness :
    normalize_url ("https://tiktok.com/t/abc".toList
        ++ List.replicate 0 '/' ++ "?x=1".toList)
      = normalize_url ("https://tiktok.com/t/abc".toList
        ++ List.replicate 2 '/' ++ "#f".toList) :=
  C7_normalize_equivalence "https://tiktok.com/t/abc".toList
    "?x=1".toList "#f".toList 0 2 (by decide) (by decide)
    (Or.inr (Or.inl ⟨"x=1".toList, by decide⟩))
    (Or.inr (Or.inr ⟨"f".toList, by decide⟩))

/-- C5 (amended): when the full-specificity query returns an empty
result set, exactly one fallback request with the city+country parts is
issued iff the city+country parts list is non-empty — i.e. at least one
of city and country is present — and differs from the full parts list;
in particular with both city and country present and a more specific
field set, the fallback fires, but it also fires when only one of the
two is present; and no call of the geocoder ever issues more than two
requests. -/
theorem C5_fallback_rule (net : String → Except Unit (List GeoHit))
    (l : Location) (hp : partsOf l ≠ [])
    (hempty : net (joinComma (partsOf l)) = .ok []) :
    ((geocode_restaurant net (some l)).requests =
       if fallbackPartsOf l ≠ [] ∧ fallbackPartsOf l ≠ partsOf l
       then [joinComma (partsOf l), joinComma (fallbackPartsOf l)]
       else [joinComma (partsOf l)])
    ∧ ∀ (net' : String → Except Unit (List GeoHit)) (loc : Option Location),
        (geocode_restaurant net' loc).requests.length ≤ 2 := by
  constructor
  · unfold geocode_restaurant
    dsimp only
    rw [if_neg hp, hempty]
    by_cases hf : fallbackPartsOf l ≠ [] ∧ fallbackPartsOf l ≠ partsOf l
    · rw [if_pos hf, if_pos hf]
      cases net (joinComma (fallbackPartsOf l)) with
      | error e => rfl
      | ok d => cases d with
        | nil => rfl
        | cons a t => rfl
    · rw [if_neg hf, if_neg hf]
  · intro net' loc
    unfold geocode_restaurant
    dsimp only
    cases loc with
    | none => simp
    | some l' =>
      dsimp only
      by_cases hp' : partsOf l' = []
      · rw [if_pos hp']; simp
      · rw [if_neg hp']
        cases net' (joinComma (partsOf l')) with
        | error e => simp
        | ok data =>
          cases data with
          | cons a t => simp
          | nil =>
            by_cases hf' : fallbackPartsOf l' ≠ [] ∧ fallbackPartsOf l' ≠ partsOf l'
            · rw [if_pos hf']
              cases net' (joinComma (fallbackPartsOf l')) with
              | error e => simp
              | ok d => cases d with
                | nil => simp
                | cons b u => simp
            · rw [if_neg hf']; simp

/-- Witness for C5 at a concrete input: a location with address, city
and country whose full query finds nothing issues exactly the full
query and then the city+country fallback query. -/
theorem C5_witness :
    (geocode_restaurant netNoHits (some locFull)).requests
      = ["123 Main St, Austin, USA", "Austin, USA"]
    ∧ (geocode_restaurant netNoHits (some locFull)).requests.length ≤ 2 := by
  have h := C5_fallback_rule netNoHits locFull (by decide) rfl
  refine ⟨?_, h.2 netNoHits (some locFull)⟩
  rw [h.1, if_pos (by decide)]
  rfl

/-- Counterexample to C5 as stated: `locNoCountry` has a neighborhood
and a city but no country, yet on an empty first result the code still
issues a fallback request (with just the city), because the code only
requires the fallback parts list to be non-empty and different — the
claim's "no fallback request is issued when city or country is absent"
is false. -/
theorem C5_counterexample :
    locNoCountry.country = none
    ∧ (geocode_restaurant netNoHits (some locNoCountry)).requests
        = ["Shibuya, Tokyo", "Tokyo"]
    ∧ (geocode_restaurant netNoHits (some locNoCountry)).requests.length = 2 :=
  ⟨rfl, rfl, rfl⟩

/-- C9: geocoding is non-fatal — a `None`/empty location or one with no
non-empty query field yields absent with zero network requests, and any
network error or timeout on a request the call actually issued makes
`geocode_restaurant` return absent (`none`) rather than raise. -/
theorem C9_geocode_nonfatal (net : String → Except Unit (List GeoHit)) :
    (geocode_restaurant net none = ⟨none, []⟩)
    ∧ (∀ l : Location, partsOf l = [] →
        geocode_restaurant net (some l) = ⟨none, []⟩)
    ∧ (∀ loc : Option Location,
        (∃ q ∈ (geocode_restaurant net loc).requests, net q = .error ())
        → (geocode_restaurant net loc).coords = none) := by
  refine ⟨rfl, ?_, ?_⟩
  · intro l hl
    unfold geocode_restaurant
    dsimp only
    rw [if_pos hl]
  · intro loc hq
    rcases loc with _ | l
    · rfl
    · by_cases hp : partsOf l = []
      · unfold geocode_restaurant
        dsimp only
        rw [if_pos hp]
      · unfold geocode_restaurant at hq ⊢
        dsimp only at hq ⊢
        rw [if_neg hp] at hq ⊢
        cases hnet : net (joinComma (partsOf l)) with
        | error e => rfl
        | ok data =>
          rw [hnet] at hq
          cases data with
          | cons a t =>
            rcases hq with ⟨q, hmem, herr⟩
            have : q = joinComma (partsOf l) := by simpa using hmem
            subst this
            rw [hnet] at herr
            exact absurd herr (by simp)
          | nil =>
            by_cases hf : fallbackPartsOf l ≠ [] ∧ fallbackPartsOf l ≠ partsOf l
            · rw [if_pos hf] at hq ⊢
              cases hnet2 : net (joinComma (fallbackPartsOf l)) with
              | error e => rfl
              | ok d =>
                rw [hnet2] at hq
                cases d with
                | nil => rfl
                | cons b u =>
                  rcases hq with ⟨q, hmem, herr⟩
                  have hqor : q = joinComma (partsOf l)
                      ∨ q = joinComma (fallbackPartsOf l) := by
                    simpa using hmem
                  rcases hqor with rfl | rfl
                  · rw [hnet] at herr
                    exact absurd herr (by simp)
                  · rw [hnet2] at herr
                    exact absurd herr (by simp)
            · rw [if_neg hf] at hq ⊢

/-- Witness for C9 at concrete inputs: an all-absent location issues no
request and returns absent, and a failing network yields absent on a
full location. -/
theorem C9_witness :
    geocode_restaurant netDown none = ⟨none, []⟩
    ∧ geocode_restaurant netDown (some { : Location}) = ⟨none, []⟩
    ∧ (geocode_restaurant netDown (some locFull)).coords = none := by
  have h := C9_geocode_nonfatal netDown
  refine ⟨h.1, h.2.1 { : Location} rfl, ?_⟩
  exact h.2.2 (some locFull) ⟨"123 Main St, Austin, USA", by decide, rfl⟩

/-- C8 (amended): `load` returns the primary store's contents when the
primary file exists; otherwise, when the remote backup is reachable and
holds a non-empty tracker, it writes that tracker to the primary
location and returns it; when the backup is absent, unreachable, or
holds an empty tracker, it returns an empty tracker without raising and
without writing the primary.  `save` always writes the full tracker to
the primary store first, and a failure of the subsequent backup mirror
write is only logged — `save` never raises (its result type has no
error case). -/
theorem C8_backup_nonfatal :
    (∀ (env : StoreEnv) (t : Tracker), env.primary = some t →
        load_tracker env = ⟨t, some t⟩)
    ∧ (∀ (env : StoreEnv) (d : Tracker), env.primary = none →
        env.backup = .ok (some d) → d ≠ [] → load_tracker env = ⟨d, some d⟩)
    ∧ (∀ (env : StoreEnv) (msg : String), env.primary = none →
        env.backup = .error msg → load_tracker env = ⟨[], none⟩)
    ∧ (∀ env : StoreEnv, env.primary = none → env.backup = .ok none →
        load_tracker env = ⟨[], none⟩)
    ∧ (∀ (up : Except String Unit) (t : Tracker),
        (save_tracker up t).primaryAfter = some t)
    ∧ (∀ (msg : String) (t : Tracker),
        save_tracker (.error msg) t = ⟨some t, some msg⟩) := by
  refine ⟨?_, ?_, ?_, ?_, ?_, ?_⟩
  · intro env t h
    unfold load_tracker
    rw [h]
  · intro env d h hb hd
    unfold load_tracker
    rw [h, hb]
    dsimp only
    rw [if_neg hd]
  · intro env msg h hb
    unfold load_tracker
    rw [h, hb]
  · intro env h hb
    unfold load_tracker
    rw [h, hb]
  · intro up t
    cases up <;> rfl
  · intro msg t
    rfl

/-- Witness for C8 at concrete inputs: restoring a non-empty backup on
a cold start returns it and writes it to the primary location. -/
theorem C8_witness :
    load_tracker storeBackupA = ⟨trkA, some trkA⟩
    ∧ (save_tracker (.error "backup down") trkA).primaryAfter = some trkA := by
  have h := C8_backup_nonfatal
  exact ⟨h.2.1 storeBackupA trkA rfl rfl (by simp [trkA]),
    h.2.2.2.2.1 (.error "backup down") trkA⟩

/-- Counterexample to C8 as stated: with the primary absent and the
backup reachable and holding an (empty) tracker, the claim says load
restores it and "writes it to the primary location", but the code's
`if data:` truthiness test skips the restore write for an empty backup:
the primary is left unwritten. -/
theorem C8_counterexample :
    storeEmptyBackup.primary = none
    ∧ storeEmptyBackup.backup = .ok (some [])
    ∧ (load_tracker storeEmptyBackup).primaryAfter = none
    ∧ (load_tracker storeEmptyBackup).primaryAfter ≠ some ([] : Tracker) :=
  ⟨rfl, rfl, rfl, by simp [load_tracker, storeEmptyBackup]⟩

end WTD
